import Mathlib

/-!
Shallow embedding of `src/Discord_Bot/bot/bot.py` (a Discord bot bridging to
the Crafty management API) and proofs about its contracts: the authenticated
API client with retry-on-auth-expiry, the server-map builder, the rate-limited
channel reconciliation loop, and the command-surface authorization gate.

Python values that matter to the claims (decoded JSON bodies) are modelled by
`JVal`; Python truthiness by `pyTruthy`; exceptions by `PyErr` carried in
`Except`.  Network interaction is modelled by passing the responses the remote
would produce as explicit arguments.
-/

namespace CraftyBot

/-- Decoded JSON values, as Python sees them after `r.json()`. -/
inductive JVal where
  | null
  | bool (b : Bool)
  | num (n : Int)
  | str (s : String)
  | arr (elems : List JVal)
  | obj (fields : List (String × JVal))
deriving Repr

/-- Python truthiness of a decoded JSON value (`bool(x)` / `if x:`). -/
def pyTruthy : JVal → Bool
  | .null => false
  | .bool b => b
  | .num n => n ≠ 0
  | .str s => s ≠ ""
  | .arr es => ¬ es.isEmpty
  | .obj fs => ¬ fs.isEmpty

/-- Exceptions raised by the bot's code.  `authFail` and `authNoToken` are the
two `RuntimeError`s of `login` (the spec's AuthError); `api` is the
`RuntimeError` of `_request` (the spec's ApiError); `attrErr` models Python's
`AttributeError` from calling `.get` on a non-dict; `transport` models
connection errors and timeouts (the spec's TransportError). -/
inductive PyErr where
  | authFail (status : Nat) (text : String)
  | authNoToken
  | api (status : Nat) (text : String)
  | attrErr
  | transport
deriving Repr, DecidableEq

/-- One HTTP response from the remote: status code, `await r.text()` and
`await r.json()`. -/
structure Resp where
  status : Nat
  text : String
  json : JVal
deriving Repr

/-- Field lookup in a JSON object literal (first binding wins, as in a Python
dict built from distinct keys; for duplicate keys Python keeps the last, so
lookups use the last occurrence). -/
def jLookup (fields : List (String × JVal)) (k : String) : Option JVal :=
  (fields.reverse.find? (fun p => p.1 = k)).map (fun p => p.2)

/-- Python `j.get(k, dflt)`: raises `AttributeError` unless `j` is a dict. -/
def pyGetD (j : JVal) (k : String) (dflt : JVal) : Except PyErr JVal :=
  match j with
  | .obj fs => .ok ((jLookup fs k).getD dflt)
  | _ => .error .attrErr

/-- Python `j.get(k)` (default `None`): raises `AttributeError` unless `j` is
a dict; a missing key yields Python `None`, modelled as `Option.none`. -/
def pyGetOpt (j : JVal) (k : String) : Except PyErr (Option JVal) :=
  match j with
  | .obj fs => .ok (jLookup fs k)
  | _ => .error .attrErr

/-- Truthiness of a possibly-`None` Python value (`None` is falsy). -/
def pyTruthyOpt : Option JVal → Bool
  | none => false
  | some v => pyTruthy v

/-- Python `a or b`: `a` if truthy, else `b`. -/
def pyOr (a b : Option JVal) : Option JVal :=
  if pyTruthyOpt a then a else b

/-- Truthiness of the configured bearer token (`if self.bearer_token:`):
absent or empty-string tokens are falsy. -/
def bearerTruthy : Option String → Bool
  | none => false
  | some s => s ≠ ""

/-- The token-extraction expression of `CraftyClient.login`:
`js.get("data", {}).get("token") or js.get("token") or js.get("data")`.
Evaluation order is Python's: `js.get("data", {})` first, then `.get("token")`
on its result (which raises `AttributeError` when that result is not a dict),
then the two fallbacks.  Returns the chain's value (possibly `None`/falsy). -/
def loginTokenChain (js : JVal) : Except PyErr (Option JVal) :=
  match pyGetD js "data" (.obj []) with
  | .error e => .error e
  | .ok dataD =>
    match pyGetOpt dataD "token" with
    | .error e => .error e
    | .ok dtok =>
      match pyGetOpt js "token" with
      | .error e => .error e
      | .ok tok =>
        match pyGetOpt js "data" with
        | .error e => .error e
        | .ok dat => .ok (pyOr dtok (pyOr tok dat))

/-- `CraftyClient.login`.  With a truthy static bearer token it returns that
token immediately; the `Nat` counts HTTP requests issued (0 in that case).
Otherwise it exchanges credentials: `loginResp` is the response to the single
`POST /api/v2/auth/login`.  On status ≥ 400 it raises
`RuntimeError("Login failed ...")`; otherwise the token chain is evaluated and
a falsy result raises `RuntimeError("No token found ...")`; a truthy result is
stored and returned. -/
def login (bearer : Option String) (loginResp : Resp) :
    Except PyErr JVal × Nat :=
  if bearerTruthy bearer then
    (.ok (.str (bearer.getD "")), 0)
  else if 400 ≤ loginResp.status then
    (.error (.authFail loginResp.status loginResp.text), 1)
  else
    match loginTokenChain loginResp.json with
    | .error e => (.error e, 1)
    | .ok tokenVal =>
      if pyTruthyOpt tokenVal then
        (.ok (tokenVal.getD .null), 1)
      else
        (.error .authNoToken, 1)

/-- `CraftyClient._request`, with the network abstracted as the stream
`resp : Nat → Resp` of responses the remote would give to the successive
attempts of this logical request, and `loginR` the outcome of a re-login
(`CraftyClient.login` on username/password).  The first `Nat` argument models
the `retry` flag as remaining retries (`1` for `retry=True`, `0` for
`retry=False`; the recursive call decrements it, so from `retry=True` the
retried request runs with `retry=False`, exactly as in the source).  Returns the request's outcome together with the
number of re-logins performed and the number of HTTP attempts issued.
Mirrors the source: the `401 and retry and not bearer_token` branch re-logins
then recurses with `retry=False`; otherwise status ≥ 400 raises
`RuntimeError(f"HTTP {status}: {text}")`; otherwise the decoded JSON is
returned. -/
def requestGo (bearer : Option String) (loginR : Except PyErr JVal)
    (resp : Nat → Resp) : Nat → Nat → Except PyErr JVal × Nat × Nat
  | 0, i =>
    let r := resp i
    if 400 ≤ r.status then (.error (.api r.status r.text), 0, 1)
    else (.ok r.json, 0, 1)
  | n + 1, i =>
    let r := resp i
    if r.status = 401 ∧ ¬ bearerTruthy bearer then
      match loginR with
      | .error e => (.error e, 1, 1)
      | .ok _ =>
        let retried := requestGo bearer loginR resp n (i + 1)
        (retried.1, retried.2.1 + 1, retried.2.2 + 1)
    else if 400 ≤ r.status then (.error (.api r.status r.text), 0, 1)
    else (.ok r.json, 0, 1)

/-- A logical request as issued by callers: `_request` starts with
`retry=True` at the first response. -/
def request (bearer : Option String) (loginR : Except PyErr JVal)
    (resp : Nat → Resp) : Except PyErr JVal × Nat × Nat :=
  requestGo bearer loginR resp 1 0

/-- `CraftyClient.get_servers` applied to the outcome of
`_request("GET", "/api/v2/servers")`: on success it evaluates
`data.get("data", [])` on the decoded body. -/
def get_servers (reqOutcome : Except PyErr JVal) : Except PyErr JVal :=
  match reqOutcome with
  | .error e => .error e
  | .ok body => pyGetD body "data" (.arr [])

/-- A well-formed remote server descriptor as consumed by
`refresh_server_map` (`s["server_name"]`, `str(s["server_id"])`; the
identifier is the already-stringified `server_id`). -/
structure Srv where
  server_name : String
  server_id : String
deriving Repr, DecidableEq

/-- The dict comprehension
`{s["server_name"]: str(s["server_id"]) for s in servers}` viewed as a
lookup: for duplicate display names the last entry wins. -/
def idByName (servers : List Srv) (name : String) : Option String :=
  (servers.reverse.find? (fun s => s.server_name = name)).map
    (fun s => s.server_id)

/-- Python `a or b` on strings: `a` unless it is `None`-or-empty. -/
def pyOrStr (a : Option String) (b : String) : String :=
  match a with
  | some s => if s ≠ "" then s else b
  | none => b

/-- The body of `refresh_server_map`'s loop: the new map entry for one
configured friendly-name → remote-name pair
(`sid = id_by_name.get(craft_name) or str(craft_name)`). -/
def resolveSid (servers : List Srv) (craftName : String) : String :=
  pyOrStr (idByName servers craftName) craftName

/-- The new server map built by `refresh_server_map` from the configured
`SERVERS_CFG` pairs and the fetched remote list. -/
def buildServerMap (cfg : List (String × String)) (servers : List Srv) :
    List (String × String) :=
  cfg.map (fun p => (p.1, resolveSid servers p.2))

/-- `refresh_server_map` with the `get_servers()` fetch abstracted as its
outcome: on failure the exception propagates and the global `server_map`
(second component) is left as it was; on success the map is replaced
wholesale by the newly built one. -/
def refresh_server_map (cfg : List (String × String))
    (fetch : Except PyErr (List Srv)) (oldMap : List (String × String)) :
    Except PyErr Unit × List (String × String) :=
  match fetch with
  | .error e => (.error e, oldMap)
  | .ok servers => (.ok (), buildServerMap cfg servers)

/-- Association-list lookup for the global string-keyed dicts
(`server_map.get(...)`); Python dicts have unique keys, and reassignment
replaces, so the last binding wins. -/
def dictGet (m : List (String × String)) (k : String) : Option String :=
  (m.reverse.find? (fun p => p.1 = k)).map (fun p => p.2)

/-- The invoking Discord user as seen by `is_authorized`: the stringified
user id and the names of the user's roles. -/
structure Caller where
  id : String
  roleNames : List String
deriving Repr, DecidableEq

/-- `is_authorized`: the caller's stringified id is among the stringified
`allowed_user_ids`, or some role name is among `allowed_role_names`. -/
def is_authorized (allowedUserIds allowedRoleNames : List String)
    (c : Caller) : Bool :=
  allowedUserIds.contains c.id || c.roleNames.any (allowedRoleNames.contains ·)

/-- A reply sent via `interaction.response.send_message`: the text and the
`ephemeral` flag (visible only to the invoking caller). -/
structure Reply where
  text : String
  ephemeral : Bool
deriving Repr, DecidableEq

/-- A remote call issued by a command handler, as path-shaped data. -/
inductive RemoteCall where
  | action (serverId : String) (actionName : String)
  | publicStats (serverId : String)
  | refreshMap
deriving Repr, DecidableEq

/-- Common shape of the `start`/`stop`/`restart` slash-command handlers:
authorization gate, server-map lookup (with Python truthiness: an unmapped
or empty id yields the unknown-server reply), then the remote action call
and the acknowledgement reply. -/
def actionCommand (allowedUserIds allowedRoleNames : List String)
    (serverMap : List (String × String)) (c : Caller) (server : String)
    (actionName : String) (ack : String) : Reply × List RemoteCall :=
  if ¬ is_authorized allowedUserIds allowedRoleNames c then
    (⟨"⛔ Unauthorized", true⟩, [])
  else
    match dictGet serverMap server with
    | none => (⟨s!"❌ Unknown server {server}", true⟩, [])
    | some sid =>
      if sid = "" then (⟨s!"❌ Unknown server {server}", true⟩, [])
      else (⟨ack, false⟩, [.action sid actionName])

/-- The `start` slash command. -/
def startCmd (ids roles : List String) (sm : List (String × String))
    (c : Caller) (server : String) : Reply × List RemoteCall :=
  actionCommand ids roles sm c server "start_server" s!"✅ Starting {server}"

/-- The `stop` slash command. -/
def stopCmd (ids roles : List String) (sm : List (String × String))
    (c : Caller) (server : String) : Reply × List RemoteCall :=
  actionCommand ids roles sm c server "stop_server" s!"🛑 Stopping {server}"

/-- The `restart` slash command. -/
def restartCmd (ids roles : List String) (sm : List (String × String))
    (c : Caller) (server : String) : Reply × List RemoteCall :=
  actionCommand ids roles sm c server "restart_server" s!"🔁 Restarting {server}"

/-- The `status` slash command: same gate, but issues `get_public` and
reports the running/online/max fields.  The three strings are Python's
`str()` renderings of `data.get("running")`, `data.get("online")` and
`data.get("max")`, supplied by the environment. -/
def statusCmd (ids roles : List String) (sm : List (String × String))
    (c : Caller) (server : String) (runningStr onlineStr maxStr : String) :
    Reply × List RemoteCall :=
  if ¬ is_authorized ids roles c then
    (⟨"⛔ Unauthorized", true⟩, [])
  else
    match dictGet sm server with
    | none => (⟨s!"❌ Unknown server {server}", true⟩, [])
    | some sid =>
      if sid = "" then (⟨s!"❌ Unknown server {server}", true⟩, [])
      else
        (⟨s!"📊 {server} — running: {runningStr}, players: {onlineStr}/{maxStr}",
          false⟩, [.publicStats sid])

/-- The `reload-config` slash command, up to its remote effects: the gate,
then the config re-read and `refresh_server_map` (the remote call). -/
def reloadConfigCmd (ids roles : List String) (c : Caller) :
    Reply × List RemoteCall :=
  if ¬ is_authorized ids roles c then
    (⟨"⛔ Unauthorized", true⟩, [])
  else
    (⟨"✅ Config reloaded.", true⟩, [.refreshMap])

/-- Whether a JSON value is an object (a Python dict). -/
def isObj : JVal → Bool
  | .obj _ => true
  | _ => false

/-- The spec's reading of the token extraction, for comparison with
`loginTokenChain`: "checking, in order, a nested `data.token`, then top-level
`token`, then top-level `data`", returning the first field *found* —
present in the body — with no crash case. -/
def specTokenLookup (js : JVal) : Option JVal :=
  match js with
  | .obj fs =>
    (match jLookup fs "data" with
     | some (.obj dfs) => jLookup dfs "token"
     | _ => none).orElse
      (fun _ => (jLookup fs "token").orElse (fun _ => jLookup fs "data"))
  | _ => none

/-- Python `str.capitalize()`: first character upper-cased, the rest
lower-cased (ASCII model). -/
def pyCapitalize (s : String) : String :=
  match s.data with
  | [] => ""
  | c :: cs => String.mk (c.toUpper :: cs.map Char.toLower)

/-- `CHANNEL_COOLDOWN = 15  # seconds`. -/
def CHANNEL_COOLDOWN : Int := 15

/-- The desired channel display name computed in `update_task`:
`f"🟢 {friendly.capitalize()}: Online" if running else
f"🔴 {friendly.capitalize()}: Offline"`. -/
def desiredName (friendly : String) (running : Bool) : String :=
  if running then s!"🟢 {pyCapitalize friendly}: Online"
  else s!"🔴 {pyCapitalize friendly}: Offline"

/-- The name computation of one binding iteration:
`running = bool(data.get("running"))` followed by the two-state name choice.
`data` is whatever `get_stats` returned; a non-dict raises `AttributeError`
(caught by the binding-level `except`). -/
def computedChannelName (friendly : String) (data : JVal) :
    Except PyErr String := do
  let r ← pyGetOpt data "running"
  return desiredName friendly (pyTruthyOpt r)

/-- `channel_last_update.get(chId, 0)`. -/
def lastUpdGet (m : List (Nat × Int)) (chId : Nat) : Int :=
  ((m.reverse.find? (fun p => p.1 = chId)).map (fun p => p.2)).getD 0

/-- `channel_last_update[chId] = t`. -/
def lastUpdSet (m : List (Nat × Int)) (chId : Nat) (t : Int) :
    List (Nat × Int) :=
  m ++ [(chId, t)]

/-- A successful channel rename issued by the reconciler: channel id, the
`time.time()` instant recorded for it, and the new name. -/
structure Rename where
  chId : Nat
  time : Int
  newName : String
deriving Repr, DecidableEq

/-- The environment one binding iteration of `update_task` sees: the outcome
of `crafty_client.get_stats(sid)`, the channel `guild.get_channel(ch_id)`
resolves to (its current name, or `none` if the channel is gone), the
`time.time()` instant, and the outcome of `ch.edit(name=...)` if issued. -/
structure BindingEnv where
  stats : Except PyErr JVal
  chan : Option String
  now : Int
  edit : Except PyErr Unit

/-- One iteration of the inner loop of `update_task` for the binding
`friendly ↦ chId`: resolve the id via the server map (`if not sid: continue`
— Python truthiness), then inside `try`: fetch stats, compute the desired
name, and if the channel exists and its name differs, apply the cooldown
check before renaming and recording the timestamp.  Every exception inside
the `try` is caught and logged, leaving the timestamp map unchanged and
producing no rename. -/
def bindingStep (friendly : String) (chId : Nat)
    (sm : List (String × String)) (lastUpd : List (Nat × Int))
    (env : BindingEnv) : List (Nat × Int) × List Rename :=
  match dictGet sm friendly with
  | none => (lastUpd, [])
  | some sid =>
    if sid = "" then (lastUpd, [])
    else
      match env.stats with
      | .error _ => (lastUpd, [])
      | .ok data =>
        match computedChannelName friendly data with
        | .error _ => (lastUpd, [])
        | .ok newName =>
          match env.chan with
          | none => (lastUpd, [])
          | some curName =>
            if curName ≠ newName then
              if env.now - lastUpdGet lastUpd chId < CHANNEL_COOLDOWN then
                (lastUpd, [])
              else
                match env.edit with
                | .error _ => (lastUpd, [])
                | .ok _ =>
                  (lastUpdSet lastUpd chId env.now, [⟨chId, env.now, newName⟩])
            else (lastUpd, [])

/-- The per-guild inner loop of `update_task`: fold `bindingStep` over the
guild's bindings, threading the timestamp map and collecting renames. -/
def cycleGuild (sm : List (String × String)) (env : String → BindingEnv)
    (bindings : List (String × Nat))
    (acc : List (Nat × Int) × List Rename) :
    List (Nat × Int) × List Rename :=
  bindings.foldl
    (fun acc b =>
      let out := bindingStep b.1 b.2 sm acc.1 (env b.1)
      (out.1, acc.2 ++ out.2))
    acc

/-- One cycle of `update_task`.  The cycle begins with
`await refresh_server_map()` — not wrapped in any `try` — so a fetch failure
propagates out of the cycle as an exception (`Except.error`), before any
binding is visited.  On success the new map is used for every binding;
missing guilds are skipped; per-binding failures are absorbed by
`bindingStep`. -/
def update_task_cycle (cfg : List (String × String))
    (fetch : Except PyErr (List Srv))
    (chanMap : List (Nat × List (String × Nat)))
    (guildPresent : Nat → Bool)
    (env : Nat → String → BindingEnv)
    (lastUpd : List (Nat × Int)) :
    Except PyErr (List (Nat × Int) × List Rename) :=
  match fetch with
  | .error e => .error e
  | .ok servers =>
    let sm := buildServerMap cfg servers
    .ok (chanMap.foldl
      (fun acc g =>
        if guildPresent g.1 then cycleGuild sm (env g.1) g.2 acc else acc)
      (lastUpd, []))

/-- What one poll cycle of `update_task` contributes to a fixed binding
`friendly ↦ chId`, in a closed system where the channel's name only changes
through our own renames: the server map produced by that cycle's refresh,
the stats outcome, whether the channel still exists, the clock, and the
rename outcome. -/
structure CycleIn where
  sm : List (String × String)
  stats : Except PyErr JVal
  chanPresent : Bool
  now : Int
  edit : Except PyErr Unit

/-- One poll cycle applied to the tracked channel: feeds the tracked current
name to `bindingStep` and updates it if a rename succeeded. -/
def traceStep (friendly : String) (chId : Nat)
    (st : String × List (Nat × Int)) (cin : CycleIn) :
    (String × List (Nat × Int)) × List Rename :=
  let env : BindingEnv :=
    ⟨cin.stats, if cin.chanPresent then some st.1 else none, cin.now, cin.edit⟩
  let out := bindingStep friendly chId cin.sm st.2 env
  ((out.2.foldl (fun _ r => r.newName) st.1, out.1), out.2)

/-- A fixed channel observed across any number of poll cycles: fold
`traceStep`, collecting every successful rename in order of issue. -/
def channelTrace (friendly : String) (chId : Nat)
    (initName : String) (initLastUpd : List (Nat × Int))
    (cycles : List CycleIn) :
    (String × List (Nat × Int)) × List Rename :=
  cycles.foldl
    (fun acc cin =>
      let out := traceStep friendly chId acc.1 cin
      (out.1, acc.2 ++ out.2))
    ((initName, initLastUpd), [])

/-- Concrete response stream: first attempt answers 401, any retry succeeds
with a JSON payload. -/
def respSeq401ok : Nat → Resp
  | 0 => ⟨401, "token expired", .null⟩
  | _ => ⟨200, "", .str "pong"⟩

/-- Concrete response stream: every attempt answers 401. -/
def respSeq401 : Nat → Resp
  | _ => ⟨401, "token expired", .null⟩

/-- A binding environment whose remote interactions all succeed trivially. -/
def trivialBindingEnv : BindingEnv := ⟨.ok .null, none, 0, .ok ()⟩

/-- A one-guild, one-binding channel map for concrete cycles. -/
def oneBindingChanMap : List (Nat × List (String × Nat)) := [(1, [("f", 7)])]

/-- Every guild id resolves (`bot.get_guild` succeeds). -/
def allGuildsPresent : Nat → Bool := fun _ => true

/-- The trivial binding environment for every guild and binding. -/
def trivialEnvs : Nat → String → BindingEnv := fun _ _ => trivialBindingEnv

/-- Concrete poll-cycle input: server stopped, observed 5 time-units after
the last rename (cooldown still active at 15). -/
def cinBlocked : CycleIn :=
  ⟨[("survival", "42")], .ok (.obj [("running", .bool false)]), true, 105,
    .ok ()⟩

/-- Concrete poll-cycle input: server still stopped, observed 16 time-units
after the last rename (cooldown elapsed). -/
def cinLater : CycleIn :=
  ⟨[("survival", "42")], .ok (.obj [("running", .bool false)]), true, 116,
    .ok ()⟩

/-! ## Helper lemmas -/

/-- With the retry flag exhausted (`retry=False`), an attempt performs no
re-login and exactly one HTTP request. -/
lemma requestGo_zero_counts (b : Option String) (l : Except PyErr JVal)
    (resp : Nat → Resp) (i : Nat) :
    (requestGo b l resp 0 i).2.1 = 0 ∧ (requestGo b l resp 0 i).2.2 = 1 := by
  simp only [requestGo]
  split <;> exact ⟨rfl, rfl⟩

/-- With the retry flag exhausted, the outcome is the plain status check on
the response to this attempt. -/
lemma requestGo_zero_result (b : Option String) (l : Except PyErr JVal)
    (resp : Nat → Resp) (i : Nat) :
    (requestGo b l resp 0 i).1 =
      if 400 ≤ (resp i).status then
        .error (.api (resp i).status (resp i).text)
      else .ok (resp i).json := by
  simp only [requestGo]
  split <;> simp_all

/-- Unfolding of an attempt with the retry flag set (`retry=True`). -/
lemma requestGo_one (b : Option String) (l : Except PyErr JVal)
    (resp : Nat → Resp) (i : Nat) :
    requestGo b l resp 1 i =
      if (resp i).status = 401 ∧ ¬ bearerTruthy b = true then
        match l with
        | .error e => (.error e, 1, 1)
        | .ok _ =>
          ((requestGo b l resp 0 (i + 1)).1,
            (requestGo b l resp 0 (i + 1)).2.1 + 1,
            (requestGo b l resp 0 (i + 1)).2.2 + 1)
      else if 400 ≤ (resp i).status then
        (.error (.api (resp i).status (resp i).text), 0, 1)
      else (.ok (resp i).json, 0, 1) := rfl

/-! ## Claim theorems -/

/-- C1: for a request with username/password credentials (no truthy static
token), a first 401 triggers exactly one re-login and exactly one retry of
the same request (2 HTTP attempts in total); if the retry succeeds its
decoded body is returned, and a second 401 — or any other status ≥ 400 — on
the retry raises the ApiError carrying that status and response body.
Re-login is attempted at most once per logical request, for any inputs. -/
theorem c1_retry_once_on_401
    (bearer : Option String) (loginR : Except PyErr JVal) (resp : Nat → Resp)
    (hb : bearerTruthy bearer = false)
    (h401 : (resp 0).status = 401)
    (tok : JVal) (hlogin : loginR = .ok tok) :
    (request bearer loginR resp).2.1 = 1 ∧
    (request bearer loginR resp).2.2 = 2 ∧
    ((resp 1).status < 400 →
      (request bearer loginR resp).1 = .ok (resp 1).json) ∧
    (400 ≤ (resp 1).status →
      (request bearer loginR resp).1 =
        .error (.api (resp 1).status (resp 1).text)) ∧
    (∀ (b : Option String) (l : Except PyErr JVal) (r : Nat → Resp),
      (request b l r).2.1 ≤ 1) := by
  subst hlogin
  have hcond : (resp 0).status = 401 ∧ ¬ bearerTruthy bearer = true :=
    ⟨h401, by simp [hb]⟩
  have key : request bearer (.ok tok) resp =
      ((requestGo bearer (.ok tok) resp 0 (0 + 1)).1,
        (requestGo bearer (.ok tok) resp 0 (0 + 1)).2.1 + 1,
        (requestGo bearer (.ok tok) resp 0 (0 + 1)).2.2 + 1) := by
    show requestGo bearer (.ok tok) resp 1 0 = _
    rw [requestGo_one, if_pos hcond]
  refine ⟨?_, ?_, ?_, ?_, ?_⟩
  · rw [key]
    simp [(requestGo_zero_counts bearer (.ok tok) resp (0 + 1)).1]
  · rw [key]
    simp [(requestGo_zero_counts bearer (.ok tok) resp (0 + 1)).2]
  · intro hlt
    rw [key]
    show (requestGo bearer (.ok tok) resp 0 (0 + 1)).1 = _
    rw [requestGo_zero_result]
    simp [Nat.not_le.mpr hlt]
  · intro hge
    rw [key]
    show (requestGo bearer (.ok tok) resp 0 (0 + 1)).1 = _
    rw [requestGo_zero_result]
    simp [hge]
  · intro b l r
    show (requestGo b l r 1 0).2.1 ≤ 1
    rw [requestGo_one]
    split
    · cases l with
      | error e => simp
      | ok v => simp [(requestGo_zero_counts b (.ok v) r (0 + 1)).1]
    · split <;> simp

/-- C1 witness: a concrete 401-then-200 exchange with username/password
credentials. -/
theorem c1_retry_once_on_401_witness :
    bearerTruthy none = false ∧ (respSeq401ok 0).status = 401 ∧
    ((request none (.ok (.str "tok")) respSeq401ok).2.1 = 1 ∧
     (request none (.ok (.str "tok")) respSeq401ok).2.2 = 2 ∧
     ((respSeq401ok 1).status < 400 →
       (request none (.ok (.str "tok")) respSeq401ok).1 =
         .ok (respSeq401ok 1).json) ∧
     (400 ≤ (respSeq401ok 1).status →
       (request none (.ok (.str "tok")) respSeq401ok).1 =
         .error (.api (respSeq401ok 1).status (respSeq401ok 1).text)) ∧
     (∀ (b : Option String) (l : Except PyErr JVal) (r : Nat → Resp),
       (request b l r).2.1 ≤ 1)) :=
  ⟨rfl, rfl,
    c1_retry_once_on_401 none (.ok (.str "tok")) respSeq401ok rfl rfl
      (.str "tok") rfl⟩

/-- C4: with a (non-empty) static bearer token configured, `login` returns
that token immediately and issues zero HTTP calls, for any response the
login endpoint could have given; and a 401 on any request never triggers a
re-login — the request fails directly with the ApiError for status 401,
after a single attempt and zero re-logins. -/
theorem c4_static_token_immune
    (t : String) (ht : t ≠ "") :
    (∀ r : Resp, login (some t) r = (.ok (.str t), 0)) ∧
    (∀ (loginR : Except PyErr JVal) (resp : Nat → Resp),
      (resp 0).status = 401 →
      request (some t) loginR resp =
        (.error (.api (resp 0).status (resp 0).text), 0, 1)) ∧
    (∀ (loginR : Except PyErr JVal) (resp : Nat → Resp),
      (request (some t) loginR resp).2.1 = 0) := by
  have hbt : bearerTruthy (some t) = true := by simp [bearerTruthy, ht]
  refine ⟨?_, ?_, ?_⟩
  · intro r
    simp [login, hbt]
  · intro loginR resp h401
    show requestGo (some t) loginR resp 1 0 = _
    rw [requestGo_one]
    rw [if_neg (by simp [hbt])]
    rw [if_pos (by omega), h401]
  · intro loginR resp
    show (requestGo (some t) loginR resp 1 0).2.1 = 0
    rw [requestGo_one, if_neg (by simp [hbt])]
    split <;> rfl

/-- C4 witness: a concrete static token against an all-401 remote. -/
theorem c4_static_token_immune_witness :
    ("statictok" : String) ≠ "" ∧
    (∀ r : Resp, login (some "statictok") r = (.ok (.str "statictok"), 0)) ∧
    (∀ (loginR : Except PyErr JVal) (resp : Nat → Resp),
      (resp 0).status = 401 →
      request (some "statictok") loginR resp =
        (.error (.api (resp 0).status (resp 0).text), 0, 1)) ∧
    (∀ (loginR : Except PyErr JVal) (resp : Nat → Resp),
      (request (some "statictok") loginR resp).2.1 = 0) :=
  ⟨by decide, c4_static_token_immune "statictok" (by decide)⟩

/-- C5: a failed remote list fetch makes `refresh_server_map` propagate the
failure and leave the previous map untouched; a successful fetch replaces
the map wholesale with the newly built one — the published map is always
either exactly the old generation or exactly the new one, never a mix. -/
theorem c5_refresh_atomic
    (cfg oldMap : List (String × String)) (fetch : Except PyErr (List Srv)) :
    (∀ e : PyErr, fetch = .error e →
      refresh_server_map cfg fetch oldMap = (.error e, oldMap)) ∧
    (∀ servers : List Srv, fetch = .ok servers →
      refresh_server_map cfg fetch oldMap =
        (.ok (), buildServerMap cfg servers)) ∧
    ((refresh_server_map cfg fetch oldMap).2 = oldMap ∨
      ∃ servers, (refresh_server_map cfg fetch oldMap).2 =
        buildServerMap cfg servers) := by
  refine ⟨?_, ?_, ?_⟩
  · intro e he
    rw [he]
    rfl
  · intro servers hs
    rw [hs]
    rfl
  · cases fetch with
    | error e => exact Or.inl rfl
    | ok servers => exact Or.inr ⟨servers, rfl⟩

/-- C5 witness: a transport failure against a populated map. -/
theorem c5_refresh_atomic_witness :
    ((.error .transport : Except PyErr (List Srv)) = .error .transport) ∧
    refresh_server_map [("survival", "SMP")] (.error .transport)
      [("survival", "42")] = (.error .transport, [("survival", "42")]) :=
  ⟨rfl,
    (c5_refresh_atomic [("survival", "SMP")] [("survival", "42")]
      (.error .transport)).1 .transport rfl⟩

/-- C2 counterexample: a cycle whose server-map refresh fails does not catch
and log the failure — `update_task` has no handler around
`refresh_server_map()`, so the exception propagates out of the cycle body
(and, under the task runner, can stop the reconciliation loop), instead of
the cycle being skipped with the loop guaranteed to continue. -/
theorem c2_counterexample :
    update_task_cycle [("f", "SMP")] (.error .transport) oneBindingChanMap
      allGuildsPresent trivialEnvs [] = .error .transport := rfl

/-- C2 (amended): a refresh failure aborts the cycle before any channel
update — the error propagates uncaught out of the cycle body, carrying no
partial updates — while after a successful refresh the cycle always
completes normally: every per-binding failure is absorbed inside the
binding loop. -/
theorem c2_cycle_failure_containment
    (cfg : List (String × String))
    (chanMap : List (Nat × List (String × Nat)))
    (guildPresent : Nat → Bool) (env : Nat → String → BindingEnv)
    (lastUpd : List (Nat × Int)) :
    (∀ e : PyErr,
      update_task_cycle cfg (.error e) chanMap guildPresent env lastUpd =
        .error e) ∧
    (∀ servers : List Srv, ∃ out,
      update_task_cycle cfg (.ok servers) chanMap guildPresent env lastUpd =
        .ok out) :=
  ⟨fun _ => rfl, fun _ => ⟨_, rfl⟩⟩

/-- Setting a channel's last-update timestamp makes it the value read back. -/
lemma lastUpdGet_set (m : List (Nat × Int)) (chId : Nat) (t : Int) :
    lastUpdGet (lastUpdSet m chId t) chId = t := by
  simp [lastUpdGet, lastUpdSet]

/-- Case analysis on one binding iteration: either it leaves the timestamp
map untouched and issues no rename, or the cooldown had elapsed
(`lastUpdGet + CHANNEL_COOLDOWN ≤ now`) and it issues exactly one rename at
`env.now`, recording that instant. -/
lemma bindingStep_spec (f : String) (chId : Nat)
    (sm : List (String × String)) (lu : List (Nat × Int))
    (env : BindingEnv) :
    bindingStep f chId sm lu env = (lu, []) ∨
    ∃ nn, lastUpdGet lu chId + CHANNEL_COOLDOWN ≤ env.now ∧
      bindingStep f chId sm lu env =
        (lastUpdSet lu chId env.now, [⟨chId, env.now, nn⟩]) := by
  unfold bindingStep
  split
  · exact Or.inl rfl
  · split
    · exact Or.inl rfl
    · split
      · exact Or.inl rfl
      · split
        · exact Or.inl rfl
        · split
          · exact Or.inl rfl
          · split
            · split
              · exact Or.inl rfl
              · split
                · exact Or.inl rfl
                · refine Or.inr ⟨_, ?_, rfl⟩
                  simp only [show CHANNEL_COOLDOWN = (15 : Int) from rfl]
                    at *
                  omega
            · exact Or.inl rfl

/-- Invariant of the per-channel trace fold: the renames collected so far
are pairwise at least a cooldown apart, and each one happened no later than
the recorded last-update instant. -/
lemma channelTrace_fold_inv (f : String) (chId : Nat)
    (cycles : List CycleIn) :
    ∀ (st : String × List (Nat × Int)) (evs : List Rename),
      List.Pairwise (fun a b => a.time + CHANNEL_COOLDOWN ≤ b.time) evs →
      (∀ r ∈ evs, r.time ≤ lastUpdGet st.2 chId) →
      List.Pairwise (fun a b => a.time + CHANNEL_COOLDOWN ≤ b.time)
        (cycles.foldl
          (fun acc cin =>
            let out := traceStep f chId acc.1 cin
            (out.1, acc.2 ++ out.2)) (st, evs)).2 ∧
      ∀ r ∈ (cycles.foldl
          (fun acc cin =>
            let out := traceStep f chId acc.1 cin
            (out.1, acc.2 ++ out.2)) (st, evs)).2,
        r.time ≤ lastUpdGet (cycles.foldl
          (fun acc cin =>
            let out := traceStep f chId acc.1 cin
            (out.1, acc.2 ++ out.2)) (st, evs)).1.2 chId := by
  induction cycles with
  | nil =>
    intro st evs h1 h2
    exact ⟨h1, h2⟩
  | cons c cs ih =>
    intro st evs h1 h2
    simp only [List.foldl_cons]
    rcases bindingStep_spec f chId c.sm st.2
        ⟨c.stats, if c.chanPresent then some st.1 else none, c.now, c.edit⟩
      with hkeep | ⟨nn, hgap, hren⟩
    · have hts : traceStep f chId st c = ((st.1, st.2), []) := by
        simp only [traceStep, hkeep, List.foldl_nil]
      rw [hts]
      simp only [List.append_nil]
      exact ih (st.1, st.2) evs h1 h2
    · have hts : traceStep f chId st c =
          ((nn, lastUpdSet st.2 chId c.now), [⟨chId, c.now, nn⟩]) := by
        simp only [traceStep, hren]
        rfl
      rw [hts]
      have hc15 : (0 : Int) ≤ CHANNEL_COOLDOWN := by
        rw [show CHANNEL_COOLDOWN = (15 : Int) from rfl]
        omega
      apply ih
      · rw [List.pairwise_append]
        refine ⟨h1, List.pairwise_singleton _ _, ?_⟩
        intro a ha b hb
        have hb1 : b = ⟨chId, c.now, nn⟩ := List.mem_singleton.mp hb
        subst hb1
        have := h2 a ha
        calc a.time + CHANNEL_COOLDOWN
            ≤ lastUpdGet st.2 chId + CHANNEL_COOLDOWN := by linarith
          _ ≤ c.now := hgap
      · intro r hr
        simp only [lastUpdGet_set]
        rcases List.mem_append.mp hr with hrold | hrnew
        · have := h2 r hrold
          linarith
        · have hr1 : r = ⟨chId, c.now, nn⟩ := List.mem_singleton.mp hrnew
          subst hr1
          exact le_refl _

/-- C3: across any number of poll cycles on a fixed channel, the successful
renames the reconciler issues are pairwise at least `CHANNEL_COOLDOWN`
apart — no channel is renamed twice within the cooldown window; and in any
cycle where the cooldown has not elapsed, no rename is issued and the
channel's (stale) name is left exactly as it was. -/
theorem c3_rename_cooldown (f : String) (chId : Nat) (initName : String)
    (initLu : List (Nat × Int)) (cycles : List CycleIn) :
    List.Pairwise (fun a b => a.time + CHANNEL_COOLDOWN ≤ b.time)
      (channelTrace f chId initName initLu cycles).2 ∧
    ∀ (st : String × List (Nat × Int)) (cin : CycleIn),
      cin.now - lastUpdGet st.2 chId < CHANNEL_COOLDOWN →
      (traceStep f chId st cin).1.1 = st.1 ∧
      (traceStep f chId st cin).2 = [] := by
  constructor
  · have hinit : ∀ r ∈ ([] : List Rename),
        r.time ≤ lastUpdGet (initName, initLu).2 chId := by
      intro r hr
      exact absurd hr (List.not_mem_nil r)
    exact (channelTrace_fold_inv f chId cycles (initName, initLu) []
      List.Pairwise.nil hinit).1
  · intro st cin hblock
    rcases bindingStep_spec f chId cin.sm st.2
        ⟨cin.stats, if cin.chanPresent then some st.1 else none, cin.now,
          cin.edit⟩
      with hkeep | ⟨nn, hgap, _⟩
    · constructor
      · simp only [traceStep, hkeep, List.foldl_nil]
      · simp only [traceStep, hkeep]
    · exfalso
      have hgap2 : lastUpdGet st.2 chId + CHANNEL_COOLDOWN ≤ cin.now := hgap
      rw [show CHANNEL_COOLDOWN = (15 : Int) from rfl] at hblock hgap2
      omega

/-- C3 witness: the spec's scenario — last rename at t=100, a cycle at
t=105 is blocked (name persists), a cycle at t=116 is allowed; the trace's
renames are pairwise ≥ 15 apart. -/
theorem c3_rename_cooldown_witness :
    List.Pairwise (fun a b => a.time + CHANNEL_COOLDOWN ≤ b.time)
      (channelTrace "survival" 7 "🟢 Survival: Online" [(7, 100)]
        [cinBlocked, cinLater]).2 ∧
    (cinBlocked.now -
        lastUpdGet ("🟢 Survival: Online", [(7, 100)]).2 7 <
      CHANNEL_COOLDOWN) ∧
    ((traceStep "survival" 7 ("🟢 Survival: Online", [(7, 100)])
        cinBlocked).1.1 = "🟢 Survival: Online" ∧
      (traceStep "survival" 7 ("🟢 Survival: Online", [(7, 100)])
        cinBlocked).2 = []) :=
  ⟨(c3_rename_cooldown "survival" 7 "🟢 Survival: Online" [(7, 100)]
      [cinBlocked, cinLater]).1,
    by decide,
    (c3_rename_cooldown "survival" 7 "🟢 Survival: Online" [(7, 100)]
      [cinBlocked, cinLater]).2 ("🟢 Survival: Online", [(7, 100)])
      cinBlocked (by decide)⟩

/-- C6 counterexample: a configured pair ("f" ↦ "SMP") whose remote name
"SMP" does match a fetched display name, but whose matched identifier is the
empty string: the claim says the friendly name is mapped to the matched
identifier "", while the code's `or` fallback maps it to "SMP". -/
theorem c6_counterexample :
    idByName [⟨"SMP", ""⟩] "SMP" = some "" ∧
    buildServerMap [("f", "SMP")] [⟨"SMP", ""⟩] = [("f", "SMP")] ∧
    ("SMP" : String) ≠ "" :=
  ⟨rfl, rfl, by decide⟩

/-- C6 (amended): a configured remote name that matches no fetched display
name resolves to the configured value itself; a matching remote name
resolves to the matched server's identifier (last occurrence wins) provided
that identifier is non-empty, and falls back to the configured value when
the matched identifier is the empty string (Python `or` truthiness).  Each
configured pair contributes exactly its resolved entry to the new map. -/
theorem c6_fallback_resolution (servers : List Srv) (craft : String) :
    ((∀ s ∈ servers, s.server_name ≠ craft) →
      resolveSid servers craft = craft) ∧
    (∀ sid, idByName servers craft = some sid → sid ≠ "" →
      resolveSid servers craft = sid) ∧
    (∀ sid, idByName servers craft = some sid → sid = "" →
      resolveSid servers craft = craft) ∧
    (∀ (cfg : List (String × String)) (friendly : String),
      (friendly, craft) ∈ cfg →
      (friendly, resolveSid servers craft) ∈ buildServerMap cfg servers) := by
  refine ⟨?_, ?_, ?_, ?_⟩
  · intro hnone
    have hfind : (servers.reverse.find? fun s => s.server_name = craft) =
        none := by
      rw [List.find?_eq_none]
      intro s hs
      simp only [decide_eq_true_eq]
      exact hnone s (List.mem_reverse.mp hs)
    simp [resolveSid, idByName, hfind, pyOrStr]
  · intro sid hid hne
    simp [resolveSid, hid, pyOrStr, hne]
  · intro sid hid heq
    subst heq
    simp [resolveSid, hid, pyOrStr]
  · intro cfg friendly hmem
    simpa [buildServerMap] using
      List.mem_map_of_mem (fun p => (p.1, resolveSid servers p.2)) hmem

/-- C6 witness: a matched pair with a non-empty identifier resolves to it,
and an unmatched pair falls back to the configured value. -/
theorem c6_fallback_resolution_witness :
    (idByName [⟨"SMP", "42"⟩] "SMP" = some "42" ∧ ("42" : String) ≠ "" ∧
      resolveSid [⟨"SMP", "42"⟩] "SMP" = "42") ∧
    ((∀ s ∈ [(⟨"SMP", "42"⟩ : Srv)], s.server_name ≠ "ghost") ∧
      resolveSid [⟨"SMP", "42"⟩] "ghost" = "ghost") :=
  ⟨⟨rfl, by decide,
      (c6_fallback_resolution [⟨"SMP", "42"⟩] "SMP").2.1 "42" rfl
        (by decide)⟩,
    ⟨by decide,
      (c6_fallback_resolution [⟨"SMP", "42"⟩] "ghost").1 (by decide)⟩⟩

/-- C7: a caller who is unauthorized — id not in the allowed-id set and no
role name in the allowed-role-name set — gets the ephemeral
"⛔ Unauthorized" reply from every action-performing command
(start/stop/restart/status/reload), and no remote call is issued; and
authorization holds exactly when the id is in the id set or some role name
is in the role-name set. -/
theorem c7_unauthorized_denied (ids roles : List String)
    (sm : List (String × String)) (c : Caller)
    (server rStr oStr mStr : String)
    (hauth : is_authorized ids roles c = false) :
    startCmd ids roles sm c server = (⟨"⛔ Unauthorized", true⟩, []) ∧
    stopCmd ids roles sm c server = (⟨"⛔ Unauthorized", true⟩, []) ∧
    restartCmd ids roles sm c server = (⟨"⛔ Unauthorized", true⟩, []) ∧
    statusCmd ids roles sm c server rStr oStr mStr =
      (⟨"⛔ Unauthorized", true⟩, []) ∧
    reloadConfigCmd ids roles c = (⟨"⛔ Unauthorized", true⟩, []) ∧
    (∀ c2 : Caller, is_authorized ids roles c2 = true ↔
      c2.id ∈ ids ∨ ∃ rn ∈ c2.roleNames, rn ∈ roles) := by
  refine ⟨?_, ?_, ?_, ?_, ?_, ?_⟩
  · simp [startCmd, actionCommand, hauth]
  · simp [stopCmd, actionCommand, hauth]
  · simp [restartCmd, actionCommand, hauth]
  · simp [statusCmd, hauth]
  · simp [reloadConfigCmd, hauth]
  · intro c2
    simp [is_authorized, List.any_eq_true]

/-- C7 witness: a concrete caller with a foreign id and a foreign role. -/
theorem c7_unauthorized_denied_witness :
    is_authorized ["1"] ["admin"] ⟨"99", ["peasant"]⟩ = false ∧
    startCmd ["1"] ["admin"] [("survival", "42")] ⟨"99", ["peasant"]⟩
        "survival" = (⟨"⛔ Unauthorized", true⟩, []) ∧
    statusCmd ["1"] ["admin"] [("survival", "42")] ⟨"99", ["peasant"]⟩
        "survival" "True" "3" "20" = (⟨"⛔ Unauthorized", true⟩, []) :=
  ⟨by decide,
    (c7_unauthorized_denied ["1"] ["admin"] [("survival", "42")]
      ⟨"99", ["peasant"]⟩ "survival" "True" "3" "20" (by decide)).1,
    (c7_unauthorized_denied ["1"] ["admin"] [("survival", "42")]
      ⟨"99", ["peasant"]⟩ "survival" "True" "3" "20" (by decide)).2.2.2.1⟩

/-- C8 counterexample: a 200 login response whose body is
`{"data": "tok"}`.  The spec's reading finds no nested `data.token` and no
top-level `token`, then finds `data` and expects the token "tok" to be
stored and returned; the code instead evaluates
`js.get("data", {}).get("token")`, calling `.get` on the string "tok", and
crashes with an `AttributeError` — neither returning the token nor raising
an AuthError. -/
theorem c8_counterexample :
    specTokenLookup (.obj [("data", .str "tok")]) = some (.str "tok") ∧
    login none ⟨200, "", .obj [("data", .str "tok")]⟩ =
      (.error .attrErr, 1) ∧
    (Except.error PyErr.attrErr : Except PyErr JVal) ≠ .ok (.str "tok") :=
  ⟨rfl, rfl, fun h => nomatch h⟩

/-- C8 (amended): with username/password credentials, `login` fails with the
AuthError carrying status and body text whenever the response status is
≥ 400; on a success status it evaluates the token chain — nested
`data.token`, then top-level `token`, then top-level `data`, the first
*truthy* value winning — stores and returns that value, and fails with the
no-token AuthError when the chain yields nothing truthy.  A present
top-level `data` value that is not a mapping makes the chain itself raise
`AttributeError` (so a plain-string `data` token is never returned);
when `data` is a mapping (or absent) the chain is the ordered `or` of the
three lookups. -/
theorem c8_login_token_extraction :
    (∀ r : Resp, 400 ≤ r.status →
      login none r = (.error (.authFail r.status r.text), 1)) ∧
    (∀ (fs : List (String × JVal)) (dv : JVal),
      jLookup fs "data" = some dv → isObj dv = false →
      loginTokenChain (.obj fs) = .error .attrErr) ∧
    (∀ (fs : List (String × JVal)) (dfs : List (String × JVal)),
      jLookup fs "data" = some (.obj dfs) →
      loginTokenChain (.obj fs) =
        .ok (pyOr (jLookup dfs "token")
          (pyOr (jLookup fs "token") (jLookup fs "data")))) ∧
    (∀ fs : List (String × JVal), jLookup fs "data" = none →
      loginTokenChain (.obj fs) = .ok (pyOr (jLookup fs "token") none)) ∧
    (∀ (r : Resp) (v : Option JVal), r.status < 400 →
      loginTokenChain r.json = .ok v → pyTruthyOpt v = true →
      login none r = (.ok (v.getD .null), 1)) ∧
    (∀ (r : Resp) (v : Option JVal), r.status < 400 →
      loginTokenChain r.json = .ok v → pyTruthyOpt v = false →
      login none r = (.error .authNoToken, 1)) := by
  refine ⟨?_, ?_, ?_, ?_, ?_, ?_⟩
  · intro r hge
    simp [login, bearerTruthy, hge]
  · intro fs dv hdv hobj
    have h1 : pyGetD (.obj fs) "data" (.obj []) = .ok dv := by
      simp [pyGetD, hdv]
    simp only [loginTokenChain, h1]
    cases dv <;> simp_all [pyGetOpt, isObj]
  · intro fs dfs hdv
    have h1 : pyGetD (.obj fs) "data" (.obj []) = .ok (.obj dfs) := by
      simp [pyGetD, hdv]
    simp only [loginTokenChain, h1]
    rfl
  · intro fs hnd
    have h1 : pyGetD (.obj fs) "data" (.obj []) = .ok (.obj []) := by
      simp [pyGetD, hnd]
    simp only [loginTokenChain, h1]
    simp only [jLookup] at hnd
    simp [pyGetOpt, pyOr, pyTruthyOpt, jLookup, hnd]
  · intro r v hlt hchain htru
    simp [login, bearerTruthy, Nat.not_le.mpr hlt, hchain, htru]
  · intro r v hlt hchain htru
    simp [login, bearerTruthy, Nat.not_le.mpr hlt, hchain, htru]

/-- C8 witness: a 500 login failure, the nested-token success case, and the
all-falsy no-token case. -/
theorem c8_login_token_extraction_witness :
    (400 ≤ (500 : Nat) ∧
      login none ⟨500, "boom", .null⟩ =
        (.error (.authFail 500 "boom"), 1)) ∧
    ((200 : Nat) < 400 ∧
      loginTokenChain (Resp.json ⟨200, "",
          .obj [("data", .obj [("token", .str "T")])]⟩) =
        .ok (some (.str "T")) ∧
      login none ⟨200, "", .obj [("data", .obj [("token", .str "T")])]⟩ =
        (.ok (.str "T"), 1)) ∧
    (loginTokenChain (Resp.json ⟨200, "", .obj []⟩) = .ok none ∧
      login none ⟨200, "", .obj []⟩ = (.error .authNoToken, 1)) :=
  ⟨⟨by decide,
      (c8_login_token_extraction).1 ⟨500, "boom", .null⟩ (by decide)⟩,
    ⟨by decide, rfl,
      (c8_login_token_extraction).2.2.2.2.1 ⟨200, "",
        .obj [("data", .obj [("token", .str "T")])]⟩ (some (.str "T"))
        (by decide) rfl rfl⟩,
    ⟨rfl,
      (c8_login_token_extraction).2.2.2.2.2 ⟨200, "", .obj []⟩ none
        (by decide) rfl rfl⟩⟩

/-- C9: the desired channel display name computed by the reconciler is a
function of the friendly name and the truthiness of the stats' `running`
field alone, with exactly two possible outputs per friendly name; every
stats record whose `running` field is not truthy — `false`, `0`, missing,
or any other falsy encoding of an intermediate state — collapses to the
Offline form. -/
theorem c9_two_state_name (friendly : String) :
    (∀ fs : List (String × JVal),
      computedChannelName friendly (.obj fs) =
        .ok (desiredName friendly (pyTruthyOpt (jLookup fs "running")))) ∧
    (∀ (d1 d2 : JVal) (r1 r2 : Option JVal),
      pyGetOpt d1 "running" = .ok r1 → pyGetOpt d2 "running" = .ok r2 →
      pyTruthyOpt r1 = pyTruthyOpt r2 →
      computedChannelName friendly d1 = computedChannelName friendly d2) ∧
    (∀ b : Bool,
      desiredName friendly b = s!"🟢 {pyCapitalize friendly}: Online" ∨
      desiredName friendly b = s!"🔴 {pyCapitalize friendly}: Offline") ∧
    (∀ fs : List (String × JVal),
      pyTruthyOpt (jLookup fs "running") = false →
      computedChannelName friendly (.obj fs) =
        .ok s!"🔴 {pyCapitalize friendly}: Offline") := by
  refine ⟨?_, ?_, ?_, ?_⟩
  · intro fs
    rfl
  · intro d1 d2 r1 r2 h1 h2 htru
    simp [computedChannelName, h1, h2, htru]
  · intro b
    cases b
    · exact Or.inr rfl
    · exact Or.inl rfl
  · intro fs h
    simp [computedChannelName, pyGetOpt, desiredName, h]

/-- C9 witness: for "survival", a stats record reporting `running: false`
and one missing the field both collapse to "🔴 Survival: Offline". -/
theorem c9_two_state_name_witness :
    pyTruthyOpt (jLookup [("running", .bool false)] "running") = false ∧
    computedChannelName "survival" (.obj [("running", .bool false)]) =
      .ok "🔴 Survival: Offline" ∧
    computedChannelName "survival" (.obj []) =
      .ok "🔴 Survival: Offline" ∧
    computedChannelName "survival" (.obj [("running", .bool true)]) =
      .ok "🟢 Survival: Online" :=
  ⟨rfl,
    (c9_two_state_name "survival").2.2.2 [("running", .bool false)] rfl,
    (c9_two_state_name "survival").2.2.2 [] rfl,
    rfl⟩

/-- C10: a success response whose decoded object body has no "data" key
makes `get_servers` return the empty list (the `.get("data", [])` default)
rather than raise; `refresh_server_map` on the resulting empty list succeeds
and publishes exactly the configured map — every friendly name sent to its
configured remote-name value — and once the fetch has succeeded the refresh
never raises. -/
theorem c10_missing_data_key (cfg oldMap : List (String × String))
    (fs : List (String × JVal)) (hnd : jLookup fs "data" = none) :
    get_servers (.ok (.obj fs)) = .ok (.arr []) ∧
    refresh_server_map cfg (.ok []) oldMap = (.ok (), cfg) ∧
    (∀ servers : List Srv,
      (refresh_server_map cfg (.ok servers) oldMap).1 = .ok ()) := by
  refine ⟨?_, ?_, fun servers => rfl⟩
  · simp [get_servers, pyGetD, hnd]
  · simp only [refresh_server_map, Prod.mk.injEq, true_and]
    simp [buildServerMap, resolveSid, idByName, pyOrStr]

/-- C10 witness: a body with only a "status" field, against a one-server
configuration. -/
theorem c10_missing_data_key_witness :
    jLookup [("status", JVal.str "ok")] "data" = none ∧
    get_servers (.ok (.obj [("status", JVal.str "ok")])) = .ok (.arr []) ∧
    refresh_server_map [("survival", "SMP")] (.ok []) [("old", "1")] =
      (.ok (), [("survival", "SMP")]) :=
  ⟨rfl,
    (c10_missing_data_key [("survival", "SMP")] [("old", "1")]
      [("status", JVal.str "ok")] rfl).1,
    (c10_missing_data_key [("survival", "SMP")] [("old", "1")]
      [("status", JVal.str "ok")] rfl).2.1⟩

end CraftyBot
